import Mathlib

/-!
Shallow embedding of the window-geometry engine of
gnome-shell-extension-ddterm (src/extension.js), together with proofs of
the specification's claims about it.

Modelling conventions:
* JavaScript numbers are modelled as exact rationals (`ℚ`); rectangle
  fields are GObject integers and are modelled as `Int`.  Assigning a
  fractional JS number to an integer struct field truncates toward zero
  (`js_trunc`).
* The monitor pixel scale is an integer, as the spec's data model states
  ("monitor pixel scale", rounding to "the nearest multiple of the
  monitor's integer pixel scale").
* Window-manager primitives (move_resize_frame, maximize, unmaximize,
  skipNextEffect) are recorded as `WMCall` values rather than applied to
  the window state: their effects come back to the engine as separate
  window-manager notifications, which are modelled as separate events.
* GSettings writes are synchronous and in-process: a write that changes
  a value immediately runs the handlers connected to that key, in
  subscription order (enable() connects changed::window-height to
  disable_window_maximize_setting and then update_window_geometry, and
  changed::window-maximize to set_window_maximized).  A write of an
  unchanged value does not notify.
-/

namespace DDTerm

/-- A frame rectangle: integer x, y, width, height (Meta.Rectangle). -/
structure Rect where
  x : Int
  y : Int
  width : Int
  height : Int
deriving DecidableEq, Repr

/-- The attributes of a Meta.Window that the engine reads.  `id` stands for
JS object identity. -/
structure MetaWindow where
  id : Nat
  frame : Rect
  maximized_vertically : Bool
  gtk_application_id : Option String
  gtk_window_object_path : Option String
deriving DecidableEq, Repr

/-- The two settings keys the geometry engine reads and writes:
window-height (a double in (0,1]) and window-maximize (a boolean). -/
structure Settings where
  window_height : ℚ
  window_maximize : Bool
deriving DecidableEq, Repr

/-- The engine's mutable state: the settings store and the bound window
(`current_window`, none when unbound). -/
structure State where
  settings : Settings
  window : Option MetaWindow
deriving DecidableEq, Repr

/-- The display environment: global.display.get_monitor_index_for_rect,
Main.layoutManager.getWorkAreaForMonitor, global.display.get_monitor_scale. -/
structure Display where
  monitor_index_for_rect : Rect → Int
  workarea_for_monitor : Int → Rect
  monitor_scale : Int → Int

/-- Window-manager calls issued by the engine, recorded in order. -/
inductive WMCall where
  | move_resize_frame (rect : Rect)
  | maximize_both
  | unmaximize_vertical
  | skip_next_effect
deriving DecidableEq, Repr

/-- Truncation of a JS number toward zero on assignment to an integer
struct field. -/
def js_trunc (q : ℚ) : Int :=
  if 0 ≤ q then ⌊q⌋ else ⌈q⌉

/-- APP_ID constant of the source. -/
def APP_ID : String := "com.github.amezin.ddterm"

/-- APP_DBUS_PATH constant of the source. -/
def APP_DBUS_PATH : String := "/com/github/amezin/ddterm"

/-- The fixed object-path head that a ddterm window's
gtk_window_object_path must start with (WINDOW_PATH_PREFIX in the source). -/
def windowPathHead : String := APP_DBUS_PATH ++ "/window/"

/-- JS String.prototype.startsWith, modelled as a prefix check on the
character list. -/
def js_starts_with (s head : String) : Bool :=
  head.data.isPrefixOf s.data

/-- The identity part of is_ddterm_window: expected application id, and a
truthy object path starting with the fixed head. -/
def ddterm_identity (win : MetaWindow) : Bool :=
  decide (win.gtk_application_id = some APP_ID) &&
  (match win.gtk_window_object_path with
   | some p => js_starts_with p windowPathHead
   | none => false)

/-- is_ddterm_window (src/extension.js:360-375).  `wayland_client` is
modelled as an optional owns_window predicate; `is_wayland_compositor`
is the IS_WAYLAND_COMPOSITOR constant. -/
def is_ddterm_window (wayland_client : Option (MetaWindow → Bool))
    (is_wayland_compositor : Bool) (win : MetaWindow) : Bool :=
  match wayland_client with
  | none =>
    -- On X11, the shell can be restarted while the app keeps running.
    if is_wayland_compositor then false else ddterm_identity win
  | some owns_window =>
    if owns_window win then ddterm_identity win else false

/-- workarea_for_window (src/extension.js:444-454): monitor index from the
frame rect; none when the index is negative. -/
def workarea_for_window (d : Display) (frame : Rect) : Option (Int × Rect) :=
  let monitor_index := d.monitor_index_for_rect frame
  if monitor_index < 0 then none
  else some (monitor_index, d.workarea_for_monitor monitor_index)

/-- target_rect_for_workarea (src/extension.js:456-465): copy the workarea,
scale the height by the window-height setting (truncated to an integer on
assignment), then round width and height down to multiples of the monitor
scale. -/
def target_rect_for_workarea (s : Settings) (d : Display) (workarea : Rect)
    (monitor_index : Int) : Rect :=
  let height1 : Int := js_trunc ((workarea.height : ℚ) * s.window_height)
  let scale : Int := d.monitor_scale monitor_index
  { x := workarea.x
    y := workarea.y
    width := workarea.width - workarea.width % scale
    height := height1 - height1 % scale }

/-- unmaximize_window_if_not_full_height (src/extension.js:481-490).  The
source queries the workarea of current_window (st.window); at every call
site st.window = some win.  When st.window is none the source would raise,
which its guards make unreachable; the model returns no calls there. -/
def unmaximize_window_if_not_full_height (d : Display) (st : State)
    (win : MetaWindow) : List WMCall :=
  match st.window with
  | none => []
  | some cw =>
    match workarea_for_window d cw.frame with
    | none => []
    | some (monitor_index, workarea) =>
      let target_rect := target_rect_for_workarea st.settings d workarea monitor_index
      if target_rect.height < workarea.height then [WMCall.unmaximize_vertical]
      else []

/-- update_window_geometry (src/extension.js:515-534).  Reads but never
writes settings, hence passes the state through unchanged. -/
def update_window_geometry (d : Display) (st : State) : State × List WMCall :=
  match st.window with
  | none => (st, [])
  | some win =>
    match workarea_for_window d win.frame with
    | none => (st, [])
    | some (monitor_index, workarea) =>
      let target_rect := target_rect_for_workarea st.settings d workarea monitor_index
      if target_rect = win.frame then (st, [])
      else if win.maximized_vertically = true ∧
              target_rect.height < workarea.height ∧
              st.settings.window_maximize = false then
        (st, [WMCall.skip_next_effect, WMCall.unmaximize_vertical])
      else
        (st, [WMCall.move_resize_frame target_rect])

/-- set_window_maximized (src/extension.js:496-508): handler connected to
changed::window-maximize. -/
def set_window_maximized (d : Display) (st : State) : List WMCall :=
  match st.window with
  | none => []
  | some win =>
    if win.maximized_vertically = st.settings.window_maximize then []
    else if st.settings.window_maximize then [WMCall.maximize_both]
    else unmaximize_window_if_not_full_height d st win

/-- settings.set_boolean for window-maximize: update the value and, when it
changed, synchronously run the changed::window-maximize handler
(set_window_maximized). -/
def set_boolean_window_maximize (d : Display) (st : State) (v : Bool) :
    State × List WMCall :=
  if st.settings.window_maximize = v then (st, [])
  else
    let st1 : State := { st with settings := { st.settings with window_maximize := v } }
    (st1, set_window_maximized d st1)

/-- disable_window_maximize_setting (src/extension.js:510-513). -/
def disable_window_maximize_setting (d : Display) (st : State) :
    State × List WMCall :=
  set_boolean_window_maximize d st false

/-- The changed::window-height notification: enable() (src/extension.js:170-171)
connects disable_window_maximize_setting first, then update_window_geometry,
and handlers for the same source fire in subscription order. -/
def window_height_changed (d : Display) (st : State) : State × List WMCall :=
  let r1 := disable_window_maximize_setting d st
  let r2 := update_window_geometry d r1.1
  (r2.1, r1.2 ++ r2.2)

/-- settings.set_double for window-height: update the value and, when it
changed, synchronously run the changed::window-height handlers. -/
def set_double_window_height (d : Display) (st : State) (v : ℚ) :
    State × List WMCall :=
  if st.settings.window_height = v then (st, [])
  else
    let st1 : State := { st with settings := { st.settings with window_height := v } }
    window_height_changed d st1

/-- handle_maximized_vertically (src/extension.js:467-479): the handler of
notify::maximized-vertically on the bound window.  check_current_window
requires the notified window to be the bound one. -/
def handle_maximized_vertically (d : Display) (st : State) (win : MetaWindow) :
    State × List WMCall :=
  if st.window ≠ some win then (st, [])
  else if win.maximized_vertically = false then
    let r1 := set_boolean_window_maximize d st false
    let r2 := update_window_geometry d r1.1
    (r2.1, r1.2 ++ r2.2)
  else if st.settings.window_maximize = false then
    (st, unmaximize_window_if_not_full_height d st win)
  else (st, [])

/-- update_height_setting_on_grab_end (src/extension.js:536-549).  The
Mutter version shim that picks the window out of p0/p1 is dropped: the
handler takes the grabbed window directly. -/
def update_height_setting_on_grab_end (d : Display) (st : State)
    (win : MetaWindow) : State × List WMCall :=
  if st.window ≠ some win ∨ win.maximized_vertically = true then (st, [])
  else
    match workarea_for_window d win.frame with
    | none => (st, [])
    | some (_, workarea) =>
      let current_height : ℚ := (win.frame.height : ℚ) / (workarea.height : ℚ)
      set_double_window_height d st (min 1 current_height)

/-- ExtensionDBusInterface.BeginResize (src/extension.js:35-54): skip the
next effect, set window-height to 1.0 (with its notification cascade),
unmaximize vertically, then move to the full workarea when one resolves. -/
def BeginResize (d : Display) (st : State) : State × List WMCall :=
  match st.window with
  | none => (st, [])
  | some win =>
    if win.maximized_vertically = false then (st, [])
    else
      let r1 := set_double_window_height d st 1
      let tail : List WMCall :=
        match workarea_for_window d win.frame with
        | none => []
        | some (_, workarea) => [WMCall.move_resize_frame workarea]
      (r1.1, WMCall.skip_next_effect :: (r1.2 ++ [WMCall.unmaximize_vertical] ++ tail))

/-! ### Concrete fixtures for witnesses and counterexamples -/

/-- A single monitor with scale 1 and a 1920x1080 workarea. -/
def display1 : Display :=
  { monitor_index_for_rect := fun _ => 0
    workarea_for_monitor := fun _ => ⟨0, 0, 1920, 1080⟩
    monitor_scale := fun _ => 1 }

/-- A single monitor with scale 2 and a 1920x1081 workarea (the height is
not a multiple of the scale). -/
def display2 : Display :=
  { monitor_index_for_rect := fun _ => 0
    workarea_for_monitor := fun _ => ⟨0, 0, 1920, 1081⟩
    monitor_scale := fun _ => 2 }

/-- A ddterm window at half workarea height, not maximized. -/
def win_half : MetaWindow :=
  { id := 1
    frame := ⟨0, 0, 1920, 540⟩
    maximized_vertically := false
    gtk_application_id := some APP_ID
    gtk_window_object_path := some "/com/github/amezin/ddterm/window/1" }

/-- A ddterm window filling the workarea, vertically maximized. -/
def win_full_max : MetaWindow :=
  { id := 2
    frame := ⟨0, 0, 1920, 1080⟩
    maximized_vertically := true
    gtk_application_id := some APP_ID
    gtk_window_object_path := some "/com/github/amezin/ddterm/window/1" }

/-- A ddterm window filling the workarea, no longer vertically maximized. -/
def win_full_unmax : MetaWindow :=
  { id := 3
    frame := ⟨0, 0, 1920, 1080⟩
    maximized_vertically := false
    gtk_application_id := some APP_ID
    gtk_window_object_path := some "/com/github/amezin/ddterm/window/1" }

/-! ### Helper lemmas -/

/-- update_window_geometry never writes settings: the state passes through. -/
lemma update_window_geometry_fst (d : Display) (st : State) :
    (update_window_geometry d st).1 = st := by
  cases hw : st.window with
  | none => simp [update_window_geometry, hw]
  | some win =>
    cases hwa : workarea_for_window d win.frame with
    | none => simp [update_window_geometry, hw, hwa]
    | some p =>
      obtain ⟨i, wa⟩ := p
      simp only [update_window_geometry, hw, hwa]
      split
      · rfl
      · split <;> rfl

/-- set_boolean for window-maximize leaves the state with that value,
whether or not a notification fired. -/
lemma set_boolean_window_maximize_fst (d : Display) (st : State) (v : Bool) :
    (set_boolean_window_maximize d st v).1 =
      { st with settings := { st.settings with window_maximize := v } } := by
  unfold set_boolean_window_maximize
  split
  · rename_i h
    cases st with
    | mk s w =>
      cases s with
      | mk sh sm =>
        simp only at h
        simp [h]
  · rfl

/-- A window-height change notification leaves window-maximize off and the
rest of the state intact. -/
lemma window_height_changed_fst (d : Display) (st : State) :
    (window_height_changed d st).1 =
      { st with settings := { st.settings with window_maximize := false } } := by
  unfold window_height_changed disable_window_maximize_setting
  rw [update_window_geometry_fst, set_boolean_window_maximize_fst]

/-- The state after a set_double on window-height. -/
lemma set_double_window_height_fst (d : Display) (st : State) (v : ℚ) :
    (set_double_window_height d st v).1 =
      if st.settings.window_height = v then st
      else { st with settings := { window_height := v, window_maximize := false } } := by
  unfold set_double_window_height
  split
  · rfl
  · rw [window_height_changed_fst]

/-- Clearing the window-maximize setting emits no window-manager call when
the bound window is not vertically maximized: the cascaded
set_window_maximized sees the flag and the setting agree. -/
lemma set_boolean_window_maximize_false_calls (d : Display) (st : State)
    (win : MetaWindow) (hb : st.window = some win)
    (hflag : win.maximized_vertically = false) :
    (set_boolean_window_maximize d st false).2 = [] := by
  unfold set_boolean_window_maximize set_window_maximized
  split
  · rfl
  · simp [hb, hflag]

/-- The target rect does not depend on the window-maximize setting. -/
lemma target_rect_maximize_irrel (s : Settings) (b : Bool) (d : Display)
    (wa : Rect) (i : Int) :
    target_rect_for_workarea { s with window_maximize := b } d wa i =
      target_rect_for_workarea s d wa i := rfl

/-- Division of a rational floor by a positive integer commutes with the
rational division: the floor of q / k is the integer (floor q) / k. -/
lemma floor_rat_div_int (q : ℚ) (k : ℤ) (hk : 0 < k) :
    ⌊q / (k : ℚ)⌋ = ⌊q⌋ / k := by
  have hk0 : (0 : ℚ) < (k : ℚ) := by exact_mod_cast hk
  rw [Int.floor_eq_iff]
  constructor
  · rw [le_div_iff₀ hk0]
    have h1 : ⌊q⌋ / k * k ≤ ⌊q⌋ := Int.ediv_mul_le ⌊q⌋ (ne_of_gt hk)
    calc ((⌊q⌋ / k : ℤ) : ℚ) * (k : ℚ) = ((⌊q⌋ / k * k : ℤ) : ℚ) := by push_cast; ring
      _ ≤ ((⌊q⌋ : ℤ) : ℚ) := by exact_mod_cast h1
      _ ≤ q := Int.floor_le q
  · rw [div_lt_iff₀ hk0]
    have h2 : ⌊q⌋ < (⌊q⌋ / k + 1) * k := Int.lt_ediv_add_one_mul_self ⌊q⌋ hk
    have h3 : ⌊q⌋ + 1 ≤ (⌊q⌋ / k + 1) * k := h2
    calc q < ((⌊q⌋ : ℤ) : ℚ) + 1 := Int.lt_floor_add_one q
      _ = (((⌊q⌋ + 1 : ℤ)) : ℚ) := by push_cast; ring
      _ ≤ (((⌊q⌋ / k + 1) * k : ℤ) : ℚ) := by exact_mod_cast h3
      _ = ((⌊q⌋ / k : ℤ) + 1 : ℚ) * (k : ℚ) := by push_cast; ring

/-! ### Claim theorems -/

/-- C1: Reconciliation is idempotent: when the bound window's frame already
equals the target rectangle computed from the current settings and the
freshly queried workarea, update_window_geometry issues no window-manager
call and leaves the whole state (settings included) unchanged. -/
theorem update_window_geometry_noop_when_frame_at_target
    (d : Display) (st : State) (win : MetaWindow) (i : Int) (wa : Rect)
    (hb : st.window = some win)
    (hwa : workarea_for_window d win.frame = some (i, wa))
    (heq : target_rect_for_workarea st.settings d wa i = win.frame) :
    update_window_geometry d st = (st, []) := by
  simp [update_window_geometry, hb, hwa, heq]

theorem update_window_geometry_noop_witness :
    update_window_geometry display1 ⟨⟨1/2, false⟩, some win_half⟩ =
      (⟨⟨1/2, false⟩, some win_half⟩, []) := by
  apply update_window_geometry_noop_when_frame_at_target display1
      ⟨⟨1/2, false⟩, some win_half⟩ win_half 0 ⟨0, 0, 1920, 1080⟩ rfl
  · simp [workarea_for_window, display1, win_half]
  · norm_num [target_rect_for_workarea, js_trunc, display1, win_half]

/-- C4: In the apply step, when the frame differs from the target: if the
window is vertically maximized, the target is lower than the workarea and
the maximize setting is off, only an unmaximize (with a skipped effect) is
issued; in every other case the window is directly moved/resized to the
target rectangle. -/
theorem update_window_geometry_apply_step
    (d : Display) (st : State) (win : MetaWindow) (i : Int) (wa : Rect)
    (hb : st.window = some win)
    (hwa : workarea_for_window d win.frame = some (i, wa))
    (hne : target_rect_for_workarea st.settings d wa i ≠ win.frame) :
    update_window_geometry d st =
      (st,
        if win.maximized_vertically = true ∧
            (target_rect_for_workarea st.settings d wa i).height < wa.height ∧
            st.settings.window_maximize = false then
          [WMCall.skip_next_effect, WMCall.unmaximize_vertical]
        else [WMCall.move_resize_frame (target_rect_for_workarea st.settings d wa i)]) := by
  simp only [update_window_geometry, hb, hwa]
  rw [if_neg hne]
  split <;> rfl

theorem update_window_geometry_apply_step_witness :
    update_window_geometry display1 ⟨⟨1/2, false⟩, some win_full_max⟩ =
      (⟨⟨1/2, false⟩, some win_full_max⟩,
       [WMCall.skip_next_effect, WMCall.unmaximize_vertical]) := by
  have h := update_window_geometry_apply_step display1
      ⟨⟨1/2, false⟩, some win_full_max⟩ win_full_max 0 ⟨0, 0, 1920, 1080⟩ rfl
      (by simp [workarea_for_window, display1, win_full_max])
      (by norm_num [target_rect_for_workarea, js_trunc, display1, win_full_max])
  rw [h]
  norm_num [target_rect_for_workarea, js_trunc, display1, win_full_max]

/-- C6: On a maximized-flag notification where the window is still
vertically maximized and the maximize setting is off, the resolver
force-unmaximizes exactly when the computed target is strictly lower than
the workarea; when the target has full workarea height, or no workarea
resolves, no unmaximize is issued.  Settings stay untouched. -/
theorem still_maximized_forced_unmaximize
    (d : Display) (st : State) (win : MetaWindow)
    (hb : st.window = some win)
    (hflag : win.maximized_vertically = true)
    (hset : st.settings.window_maximize = false) :
    (handle_maximized_vertically d st win).1 = st ∧
    (workarea_for_window d win.frame = none →
      (handle_maximized_vertically d st win).2 = []) ∧
    (∀ i wa, workarea_for_window d win.frame = some (i, wa) →
      (handle_maximized_vertically d st win).2 =
        if (target_rect_for_workarea st.settings d wa i).height < wa.height
        then [WMCall.unmaximize_vertical] else []) := by
  have hmain : handle_maximized_vertically d st win =
      (st, unmaximize_window_if_not_full_height d st win) := by
    unfold handle_maximized_vertically
    rw [if_neg (by simp [hb]), if_neg (by simp [hflag]), if_pos hset]
  refine ⟨by rw [hmain], ?_, ?_⟩
  · intro hnone
    rw [hmain]
    simp [unmaximize_window_if_not_full_height, hb, hnone]
  · intro i wa hwa
    rw [hmain]
    simp [unmaximize_window_if_not_full_height, hb, hwa]

theorem still_maximized_forced_unmaximize_witness :
    (handle_maximized_vertically display1 ⟨⟨1/2, false⟩, some win_full_max⟩
        win_full_max).2 = [WMCall.unmaximize_vertical] := by
  have h := (still_maximized_forced_unmaximize display1
      ⟨⟨1/2, false⟩, some win_full_max⟩ win_full_max rfl rfl rfl).2.2
      0 ⟨0, 0, 1920, 1080⟩ (by simp [workarea_for_window, display1, win_full_max])
  rw [h]
  norm_num [target_rect_for_workarea, js_trunc, display1]

/-- C5: On a maximized-flag notification where the window is no longer
vertically maximized, the resolver clears the maximize setting (leaving
the height setting intact), emits exactly the calls of a full
reconciliation run on the cleared settings, and in particular, when the
frame still fills the workarea and the configured target is smaller, it
moves the window to the configured-fraction rectangle rather than the full
workarea. -/
theorem maximized_flag_cleared_reconciles
    (d : Display) (st : State) (win : MetaWindow)
    (hb : st.window = some win)
    (hflag : win.maximized_vertically = false) :
    (handle_maximized_vertically d st win).1 =
      { st with settings := { st.settings with window_maximize := false } } ∧
    (handle_maximized_vertically d st win).2 =
      (update_window_geometry d
        { st with settings := { st.settings with window_maximize := false } }).2 ∧
    (∀ i wa, workarea_for_window d win.frame = some (i, wa) → win.frame = wa →
      target_rect_for_workarea st.settings d wa i ≠ wa →
      (handle_maximized_vertically d st win).2 =
        [WMCall.move_resize_frame (target_rect_for_workarea st.settings d wa i)]) := by
  have hmain : handle_maximized_vertically d st win =
      ((update_window_geometry d (set_boolean_window_maximize d st false).1).1,
       (set_boolean_window_maximize d st false).2 ++
         (update_window_geometry d (set_boolean_window_maximize d st false).1).2) := by
    unfold handle_maximized_vertically
    rw [if_neg (by simp [hb]), if_pos hflag]
  have hfst := set_boolean_window_maximize_fst d st false
  have hcalls := set_boolean_window_maximize_false_calls d st win hb hflag
  have h1 : (handle_maximized_vertically d st win).1 =
      { st with settings := { st.settings with window_maximize := false } } := by
    rw [hmain]
    simp only [update_window_geometry_fst, hfst]
  have h2 : (handle_maximized_vertically d st win).2 =
      (update_window_geometry d
        { st with settings := { st.settings with window_maximize := false } }).2 := by
    rw [hmain]
    simp only [hcalls, hfst, List.nil_append]
  refine ⟨h1, h2, ?_⟩
  intro i wa hwa hframe hne
  rw [h2]
  simp only [update_window_geometry, hb, hwa, target_rect_maximize_irrel]
  rw [hframe, if_neg hne, if_neg (by simp [hflag])]

theorem maximized_flag_cleared_reconciles_witness :
    (handle_maximized_vertically display1 ⟨⟨1/2, true⟩, some win_full_unmax⟩
        win_full_unmax).1.settings.window_maximize = false ∧
    (handle_maximized_vertically display1 ⟨⟨1/2, true⟩, some win_full_unmax⟩
        win_full_unmax).2 =
      [WMCall.move_resize_frame ⟨0, 0, 1920, 540⟩] := by
  have h := maximized_flag_cleared_reconciles display1
      ⟨⟨1/2, true⟩, some win_full_unmax⟩ win_full_unmax rfl rfl
  constructor
  · rw [h.1]
  · have h3 := h.2.2 0 ⟨0, 0, 1920, 1080⟩
      (by simp [workarea_for_window, display1, win_full_unmax])
      (by simp [win_full_unmax])
      (by norm_num [target_rect_for_workarea, js_trunc, display1])
    rw [h3]
    norm_num [target_rect_for_workarea, js_trunc, display1]

/-- C2 (amended): for every size in (0,1], nonnegative workarea height and
positive integer monitor scale, the target height equals
floor(workareaHeight * size / scale) * scale; at size 1 it equals the
workarea height exactly when the scale divides that height. -/
theorem target_height_floor_formula
    (s : Settings) (d : Display) (wa : Rect) (i : Int)
    (hW : 0 ≤ wa.height) (hk : 0 < d.monitor_scale i)
    (hs0 : 0 < s.window_height) (hs1 : s.window_height ≤ 1) :
    (target_rect_for_workarea s d wa i).height =
      ⌊(wa.height : ℚ) * s.window_height / (d.monitor_scale i : ℚ)⌋ *
        d.monitor_scale i ∧
    (s.window_height = 1 → d.monitor_scale i ∣ wa.height →
      (target_rect_for_workarea s d wa i).height = wa.height) := by
  have hq0 : 0 ≤ (wa.height : ℚ) * s.window_height :=
    mul_nonneg (by exact_mod_cast hW) hs0.le
  have htr : js_trunc ((wa.height : ℚ) * s.window_height) =
      ⌊(wa.height : ℚ) * s.window_height⌋ := if_pos hq0
  constructor
  · show js_trunc ((wa.height : ℚ) * s.window_height) -
        js_trunc ((wa.height : ℚ) * s.window_height) % d.monitor_scale i =
      ⌊(wa.height : ℚ) * s.window_height / (d.monitor_scale i : ℚ)⌋ *
        d.monitor_scale i
    rw [htr, floor_rat_div_int _ _ hk, Int.emod_def]
    ring
  · intro h1 hdvd
    show js_trunc ((wa.height : ℚ) * s.window_height) -
        js_trunc ((wa.height : ℚ) * s.window_height) % d.monitor_scale i =
      wa.height
    have hqz : (wa.height : ℚ) * s.window_height = ((wa.height : ℤ) : ℚ) := by
      rw [h1, mul_one]
    rw [htr, hqz, Int.floor_intCast, Int.emod_eq_zero_of_dvd hdvd, sub_zero]

theorem target_height_full_size_not_exact :
    (target_rect_for_workarea ⟨1, false⟩ display2 ⟨0, 0, 1920, 1081⟩ 0).height ≠
      1081 := by
  norm_num [target_rect_for_workarea, js_trunc, display2]

theorem target_height_floor_formula_witness :
    (0 : ℚ) < 7/10 ∧ (7 : ℚ)/10 ≤ 1 ∧
    (target_rect_for_workarea ⟨7/10, false⟩ display2 ⟨0, 0, 1920, 1081⟩ 0).height =
      ⌊(1081 : ℚ) * (7/10) / (2 : ℚ)⌋ * 2 := by
  refine ⟨by norm_num, by norm_num, ?_⟩
  have h := (target_height_floor_formula ⟨7/10, false⟩ display2
      ⟨0, 0, 1920, 1081⟩ 0 (by norm_num) (by norm_num [display2])
      (by norm_num) (by norm_num)).1
  rw [h]
  norm_num [display2]

/-- C3 (amended): the target rectangle is always anchored at the workarea
origin (the code implements only the top edge and has no edge setting):
its x and y equal the workarea's x and y; in particular with size 0.5,
workarea 0,0,1920x1080 and scale 1 the target rectangle is 0,0,1920x540. -/
theorem target_rect_anchored_at_workarea_origin :
    (∀ (s : Settings) (d : Display) (wa : Rect) (i : Int),
      (target_rect_for_workarea s d wa i).x = wa.x ∧
      (target_rect_for_workarea s d wa i).y = wa.y) ∧
    target_rect_for_workarea ⟨1/2, false⟩ display1 ⟨0, 0, 1920, 1080⟩ 0 =
      ⟨0, 0, 1920, 540⟩ := by
  constructor
  · exact fun s d wa i => ⟨rfl, rfl⟩
  · norm_num [target_rect_for_workarea, js_trunc, display1]

theorem target_rect_bottom_anchor_refuted :
    target_rect_for_workarea ⟨1/2, false⟩ display1 ⟨0, 0, 1920, 1080⟩ 0 ≠
      ⟨0, 540, 1920, 540⟩ := by
  norm_num [target_rect_for_workarea, js_trunc, display1]

/-- C7 (amended): a grab-end on the bound, not vertically maximized window
persists min(1, frameHeight / workareaHeight) as the window-height setting
and the handler writes no other setting directly; when the persisted value
differs from the stored one, the resulting window-height change
notification clears the window-maximize setting; when it is unchanged, or
when the window is maximized on the axis or the grab belongs to another
window, no setting is written at all. -/
theorem grab_end_persists_height
    (d : Display) (st : State) (win : MetaWindow) :
    (st.window ≠ some win ∨ win.maximized_vertically = true →
      update_height_setting_on_grab_end d st win = (st, [])) ∧
    (st.window = some win → win.maximized_vertically = false →
      workarea_for_window d win.frame = none →
      update_height_setting_on_grab_end d st win = (st, [])) ∧
    (∀ i wa, st.window = some win → win.maximized_vertically = false →
      workarea_for_window d win.frame = some (i, wa) →
      ((update_height_setting_on_grab_end d st win).1.settings.window_height =
          min 1 ((win.frame.height : ℚ) / (wa.height : ℚ)) ∧
       (st.settings.window_height =
           min 1 ((win.frame.height : ℚ) / (wa.height : ℚ)) →
         update_height_setting_on_grab_end d st win = (st, [])) ∧
       (st.settings.window_height ≠
           min 1 ((win.frame.height : ℚ) / (wa.height : ℚ)) →
         (update_height_setting_on_grab_end d st win).1.settings.window_maximize =
           false))) := by
  refine ⟨?_, ?_, ?_⟩
  · intro h
    unfold update_height_setting_on_grab_end
    rw [if_pos h]
  · intro hb hflag hnone
    simp [update_height_setting_on_grab_end, hb, hflag, hnone]
  · intro i wa hb hflag hwa
    have hred : update_height_setting_on_grab_end d st win =
        set_double_window_height d st
          (min 1 ((win.frame.height : ℚ) / (wa.height : ℚ))) := by
      simp [update_height_setting_on_grab_end, hb, hflag, hwa]
    refine ⟨?_, ?_, ?_⟩
    · rw [hred, set_double_window_height_fst]
      split
      · rename_i h
        exact h
      · rfl
    · intro h
      rw [hred]
      unfold set_double_window_height
      rw [if_pos h]
    · intro h
      rw [hred, set_double_window_height_fst, if_neg h]

theorem grab_end_toggles_maximize_setting :
    ((⟨⟨1, true⟩, some win_half⟩ : State).settings.window_maximize = true) ∧
    (update_height_setting_on_grab_end display1 ⟨⟨1, true⟩, some win_half⟩
        win_half).1.settings.window_maximize = false := by
  constructor
  · rfl
  · have hred : update_height_setting_on_grab_end display1
        ⟨⟨1, true⟩, some win_half⟩ win_half =
        set_double_window_height display1 ⟨⟨1, true⟩, some win_half⟩
          (min 1 ((win_half.frame.height : ℚ) / ((1080 : ℤ) : ℚ))) := by
      simp [update_height_setting_on_grab_end, workarea_for_window, display1,
        win_half]
    rw [hred, set_double_window_height_fst, if_neg ?_]
    norm_num [win_half]

theorem grab_end_persists_height_witness :
    (update_height_setting_on_grab_end display1 ⟨⟨1, true⟩, some win_half⟩
        win_half).1.settings.window_height = 1/2 := by
  have h := ((grab_end_persists_height display1 ⟨⟨1, true⟩, some win_half⟩
      win_half).2.2 0 ⟨0, 0, 1920, 1080⟩ rfl rfl
      (by simp [workarea_for_window, display1, win_half])).1
  rw [h]
  norm_num [win_half]

/-- C8: BeginResize is a no-op unless a window is bound and vertically
maximized; when that holds it issues an unmaximize of the vertical axis
and, when a workarea resolves for the window's monitor, ends by moving the
window to that workarea rectangle. -/
theorem begin_resize_spec (d : Display) (st : State) :
    ((∀ win, st.window = some win → win.maximized_vertically = false) →
      BeginResize d st = (st, [])) ∧
    (∀ win, st.window = some win → win.maximized_vertically = true →
      (WMCall.unmaximize_vertical ∈ (BeginResize d st).2 ∧
       ∀ i wa, workarea_for_window d win.frame = some (i, wa) →
         (BeginResize d st).2.getLast? =
           some (WMCall.move_resize_frame wa))) := by
  constructor
  · intro h
    cases hw : st.window with
    | none => simp [BeginResize, hw]
    | some win => simp [BeginResize, hw, h win hw]
  · intro win hb hflag
    have hred : BeginResize d st =
        ((set_double_window_height d st 1).1,
         WMCall.skip_next_effect ::
           ((set_double_window_height d st 1).2 ++ [WMCall.unmaximize_vertical] ++
             (match workarea_for_window d win.frame with
              | none => []
              | some (_, workarea) => [WMCall.move_resize_frame workarea]))) := by
      simp [BeginResize, hb, hflag]
    constructor
    · rw [hred]
      simp
    · intro i wa hwa
      rw [hred, hwa]
      have hsplit : WMCall.skip_next_effect ::
          ((set_double_window_height d st 1).2 ++ [WMCall.unmaximize_vertical] ++
            [WMCall.move_resize_frame wa]) =
          (WMCall.skip_next_effect ::
            ((set_double_window_height d st 1).2 ++ [WMCall.unmaximize_vertical])) ++
            [WMCall.move_resize_frame wa] := by
        simp
      rw [hsplit, List.getLast?_concat]

theorem begin_resize_spec_witness :
    WMCall.unmaximize_vertical ∈
      (BeginResize display1 ⟨⟨1/2, false⟩, some win_full_max⟩).2 ∧
    (BeginResize display1 ⟨⟨1/2, false⟩, some win_full_max⟩).2.getLast? =
      some (WMCall.move_resize_frame ⟨0, 0, 1920, 1080⟩) := by
  have h := (begin_resize_spec display1 ⟨⟨1/2, false⟩, some win_full_max⟩).2
      win_full_max rfl rfl
  exact ⟨h.1, h.2 0 ⟨0, 0, 1920, 1080⟩
    (by simp [workarea_for_window, display1, win_full_max])⟩

/-- C9: the identity filter accepts a window exactly when it reports the
expected application id and an object path starting with the fixed head,
and the owned-process channel, when one exists, confirms ownership; with
no channel it rejects unconditionally on a Wayland compositor and falls
back to the identity test alone otherwise.  The filter is a pure function
of its inputs. -/
theorem is_ddterm_window_characterization
    (wc : Option (MetaWindow → Bool)) (isw : Bool) (win : MetaWindow) :
    is_ddterm_window wc isw win = true ↔
      ((win.gtk_application_id = some APP_ID ∧
        ∃ p, win.gtk_window_object_path = some p ∧
          js_starts_with p windowPathHead = true) ∧
       (∀ owns, wc = some owns → owns win = true) ∧
       (wc = none → isw = false)) := by
  have hident : ddterm_identity win = true ↔
      (win.gtk_application_id = some APP_ID ∧
       ∃ p, win.gtk_window_object_path = some p ∧
         js_starts_with p windowPathHead = true) := by
    unfold ddterm_identity
    cases hp : win.gtk_window_object_path with
    | none => simp
    | some p => simp [hp]
  cases wc with
  | none =>
    cases isw with
    | false => simp [is_ddterm_window, hident]
    | true => simp [is_ddterm_window]
  | some owns =>
    cases ho : owns win with
    | false => simp [is_ddterm_window, ho]
    | true => simp [is_ddterm_window, ho, hident]

theorem is_ddterm_window_characterization_witness :
    is_ddterm_window none false win_half = true := by
  apply (is_ddterm_window_characterization none false win_half).mpr
  refine ⟨⟨rfl, "/com/github/amezin/ddterm/window/1", rfl, by decide⟩, ?_, ?_⟩
  · intro owns h
    cases h
  · intro _
    rfl

/-- C10: every window-height change notification turns the window-maximize
setting off, whatever the new height value is; consequently any settings
write that changes window-height (such as the one performed by the
grab-end handler) clears the maximize setting. -/
theorem window_height_change_clears_maximize
    (d : Display) (st : State) (v : ℚ) :
    (window_height_changed d st).1.settings.window_maximize = false ∧
    (st.settings.window_height ≠ v →
      (set_double_window_height d st v).1.settings.window_maximize = false) := by
  constructor
  · rw [window_height_changed_fst]
  · intro h
    rw [set_double_window_height_fst, if_neg h]

theorem window_height_change_clears_maximize_witness :
    (set_double_window_height display1 ⟨⟨1/2, true⟩, some win_half⟩
        1).1.settings.window_maximize = false := by
  exact (window_height_change_clears_maximize display1
      ⟨⟨1/2, true⟩, some win_half⟩ 1).2 (by norm_num)

end DDTerm
